import Mathlib

/-!
Verification development for the gyatt_form movement-analysis core.

This file gives a shallow embedding of the three cooperating modules
`analysis/state_machine.py`, `analysis/rep_counter.py` and
`utils/rep_analyzer.py`, and proves properties of the embedded code.

Modelling conventions:
* Python floats are modelled as exact rationals (`ℚ`); every comparison the
  properties depend on is far from a representability boundary, so the float
  versus rational distinction does not affect any decision made by the code.
* Wall-clock reads (`time.time()`) are modelled by threading an explicit
  `now : ℚ` argument through every operation that calls it.
* `collections.deque(maxlen = n)` is modelled by `pushCap n`, which appends
  and then drops the oldest entries down to capacity `n`.
* `MovementStateMachine.update_state` is modelled at the angle level: the
  code first derives `elbow_angle` from the pose via `AngleCalculator`;
  the embedding takes that derived angle directly, as all the verified
  properties are stated at the angle level (`0.0` is the no-detection
  sentinel, exactly as in the code).
* `statistics.stdev` (sample standard deviation) requires a square root, so
  the consistency score lives in `ℝ`; everything else is computable.
-/

set_option maxRecDepth 100000

namespace GyattForm

/-- Movement states, from `state_machine.MovementState`. -/
inductive MovementState where
  | READY
  | DESCENDING
  | BOTTOM
  | ASCENDING
  | TOP
deriving DecidableEq, Repr

open MovementState

/-- Bounded append modelling `collections.deque(maxlen := cap)`: append the
new element, then drop oldest entries until the length is at most `cap`. -/
def pushCap {α : Type} (cap : ℕ) (l : List α) (a : α) : List α :=
  let l' := l ++ [a]
  l'.drop (l'.length - cap)

/-- State of one `MovementStateMachine` instance: the mutable attributes set
in `MovementStateMachine.__init__` (thresholds are fixed constants below,
exactly the literals assigned in `__init__`). -/
structure MachineState where
  current_state : MovementState
  state_start_time : ℚ
  state_frame_count : ℕ
  state_history : List (MovementState × ℚ)
  angle_history : List ℚ
deriving DecidableEq, Repr

/-- `self.top_threshold = 150.0` in `MovementStateMachine.__init__`. -/
def top_threshold : ℚ := 150

/-- `self.bottom_threshold = 100.0`. -/
def bottom_threshold : ℚ := 100

/-- `self.movement_threshold = 3.0`. -/
def movement_threshold : ℚ := 3

/-- `self.min_state_frames = 1`. -/
def min_state_frames : ℕ := 1

/-- `self.transition_hysteresis = 5.0`. -/
def transition_hysteresis : ℚ := 5

/-- Initial machine state built by `MovementStateMachine.__init__` at wall
time `t`. -/
def init_machine (t : ℚ) : MachineState :=
  { current_state := READY
    state_start_time := t
    state_frame_count := 0
    state_history := []
    angle_history := [] }

/-- `MovementStateMachine.determine_state_from_angle`. `hist` is
`self.angle_history` as read inside the method, i.e. already containing the
current `elbow_angle` as its last element; `hist[-1] - hist[-2]` is read via
`getLastD` on the list and its `dropLast`. -/
def determine_state_from_angle (cur : MovementState) (hist : List ℚ)
    (elbow_angle : ℚ) : MovementState :=
  let top_thresh :=
    if cur = TOP ∨ cur = READY then top_threshold - transition_hysteresis
    else top_threshold
  let bottom_thresh :=
    if cur = BOTTOM then bottom_threshold + transition_hysteresis
    else bottom_threshold
  if top_thresh ≤ elbow_angle then TOP
  else if elbow_angle ≤ bottom_thresh then BOTTOM
  else if 2 ≤ hist.length then
    let angle_trend := hist.getLastD 0 - hist.dropLast.getLastD 0
    if angle_trend < -movement_threshold then DESCENDING
    else if movement_threshold < angle_trend then ASCENDING
    else if cur = DESCENDING ∨ cur = ASCENDING then cur
    else READY
  else READY

/-- Adjacency table from `MovementStateMachine.is_valid_transition`. -/
def valid_transitions : MovementState → List MovementState
  | READY => [DESCENDING, TOP]
  | TOP => [DESCENDING, READY]
  | DESCENDING => [BOTTOM, ASCENDING]
  | BOTTOM => [ASCENDING, DESCENDING]
  | ASCENDING => [TOP, DESCENDING]

/-- `MovementStateMachine.is_valid_transition`. -/
def is_valid_transition (from_state to_state : MovementState) : Bool :=
  (valid_transitions from_state).contains to_state

/-- `MovementStateMachine.should_transition_to_state`. -/
def should_transition_to_state (s : MachineState)
    (new_state : MovementState) : Bool :=
  if new_state = s.current_state then false
  else if s.state_frame_count < min_state_frames then false
  else is_valid_transition s.current_state new_state

/-- `MovementStateMachine.transition_to_state` at wall time `now`. -/
def transition_to_state (s : MachineState) (new_state : MovementState)
    (now : ℚ) : MachineState :=
  { s with
    current_state := new_state
    state_start_time := now
    state_frame_count := 0
    state_history := pushCap 10 s.state_history (new_state, now) }

/-- `MovementStateMachine.update_state` at wall time `now`, taking the
computed elbow angle. Returns the updated machine together with the returned
`MovementState`. -/
def update_state (s : MachineState) (now elbow_angle : ℚ) :
    MachineState × MovementState :=
  if elbow_angle = 0 then (s, s.current_state)
  else
    let s1 := { s with angle_history := pushCap 5 s.angle_history elbow_angle }
    let new_state :=
      determine_state_from_angle s1.current_state s1.angle_history elbow_angle
    let s2 :=
      if should_transition_to_state s1 new_state then
        if new_state ≠ s1.current_state then transition_to_state s1 new_state now
        else s1
      else s1
    let s3 := { s2 with state_frame_count := s2.state_frame_count + 1 }
    (s3, s3.current_state)

/-- Run the machine over a list of `(now, angle)` samples. -/
def run_machine (s : MachineState) : List (ℚ × ℚ) → MachineState
  | [] => s
  | (now, a) :: rest => run_machine (update_state s now a).1 rest

/-- Number of calls in the run that change the current phase. -/
def count_phase_changes (s : MachineState) : List (ℚ × ℚ) → ℕ
  | [] => 0
  | (now, a) :: rest =>
    let s' := (update_state s now a).1
    (if s'.current_state = s.current_state then 0 else 1) +
      count_phase_changes s' rest

/-- One repetition record, from `rep_counter.RepetitionData`. -/
structure RepetitionData where
  rep_number : ℕ
  start_time : ℚ
  end_time : ℚ
  form_scores : List ℚ
  state_sequence : List MovementState
  average_form_score : ℚ
  duration : ℚ
  elbow_angles : List ℚ
deriving DecidableEq, Repr

/-- `RepetitionData.is_valid`: complete cycle, duration in `[2, 10]`, and a
good (or absent) form score. -/
def RepetitionData.is_valid (r : RepetitionData) : Bool :=
  let has_complete_cycle :=
    [TOP, DESCENDING, BOTTOM, ASCENDING].all
      (fun st => r.state_sequence.contains st)
  let reasonable_duration :=
    decide (2 ≤ r.duration) && decide (r.duration ≤ 10)
  let good_form :=
    r.form_scores.isEmpty || decide (60 ≤ r.average_form_score)
  has_complete_cycle && reasonable_duration && good_form

/-- Mutable state of one `RepCounter` instance. -/
structure RepCounterState where
  sequence_index : ℕ
  current_rep_start : Option ℚ
  current_rep_states : List MovementState
  current_rep_angles : List ℚ
  current_rep_scores : List ℚ
  repetitions : List RepetitionData
  total_reps : ℕ
  valid_reps : ℕ
deriving DecidableEq, Repr

/-- `self.required_sequence` from `RepCounter.__init__`. -/
def required_sequence : List MovementState :=
  [TOP, DESCENDING, BOTTOM, ASCENDING, TOP]

/-- `RepCounter._reset_current_rep`. -/
def reset_current_rep (s : RepCounterState) : RepCounterState :=
  { s with
    sequence_index := 0
    current_rep_start := none
    current_rep_states := []
    current_rep_angles := []
    current_rep_scores := [] }

/-- State built by `RepCounter.__init__` (which calls `reset_counter`). -/
def init_counter : RepCounterState :=
  { sequence_index := 0
    current_rep_start := none
    current_rep_states := []
    current_rep_angles := []
    current_rep_scores := []
    repetitions := []
    total_reps := 0
    valid_reps := 0 }

/-- `RepCounter._complete_repetition`. Note the code increments
`total_reps` (and appends the record) only inside `if rep_data.is_valid`,
with a redundant nested `is_valid` check guarding `valid_reps`; the
embedding mirrors that structure exactly. Returns the boolean result of the
method together with the updated counter state. -/
def complete_repetition (s : RepCounterState) (timestamp : ℚ) :
    Bool × RepCounterState :=
  match s.current_rep_start with
  | none => (false, reset_current_rep s)
  | some start =>
    let duration := timestamp - start
    let average_score :=
      if s.current_rep_scores = [] then 100
      else s.current_rep_scores.sum / (s.current_rep_scores.length : ℚ)
    let rep_data : RepetitionData :=
      { rep_number := s.repetitions.length + 1
        start_time := start
        end_time := timestamp
        form_scores := s.current_rep_scores
        state_sequence := s.current_rep_states
        average_form_score := average_score
        duration := duration
        elbow_angles := s.current_rep_angles }
    let s' :=
      if rep_data.is_valid then
        { s with
          repetitions := s.repetitions ++ [rep_data]
          total_reps := s.total_reps + 1
          valid_reps := s.valid_reps + (if rep_data.is_valid then 1 else 0) }
      else s
    (rep_data.is_valid, reset_current_rep s')

/-- `RepCounter.update` with an explicit `timestamp` (the code defaults a
`None` timestamp to `time.time()`; the claims always supply one). The read
`self.required_sequence[self.sequence_index]` is modelled with `getD`; the
reachability invariant proved below shows the default is never consulted. -/
def counter_update (s : RepCounterState) (current_state : MovementState)
    (elbow_angle form_score timestamp : ℚ) : Bool × RepCounterState :=
  let s0 :=
    { s with
      current_rep_states := s.current_rep_states ++ [current_state]
      current_rep_angles := s.current_rep_angles ++ [elbow_angle]
      current_rep_scores := s.current_rep_scores ++ [form_score] }
  let expected_state := required_sequence.getD s0.sequence_index READY
  if current_state = expected_state then
    let s1 := { s0 with sequence_index := s0.sequence_index + 1 }
    let s2 :=
      if s1.sequence_index = 1 ∧ s1.current_rep_start = none then
        { s1 with current_rep_start := some timestamp }
      else s1
    if required_sequence.length ≤ s2.sequence_index then
      complete_repetition s2 timestamp
    else (false, s2)
  else if 0 < s0.sequence_index then
    if current_state = required_sequence.getD 0 READY then
      let s1 := reset_current_rep s0
      (false, { s1 with sequence_index := 1, current_rep_start := some timestamp })
    else (false, s0)
  else (false, s0)

/-- Run the counter over a list of `(phase, angle, score, timestamp)`
inputs, collecting the boolean returned by each call. -/
def run_counter (s : RepCounterState) :
    List (MovementState × ℚ × ℚ × ℚ) → List Bool × RepCounterState
  | [] => ([], s)
  | (st, a, sc, t) :: rest =>
    let r := counter_update s st a sc t
    let r' := run_counter r.2 rest
    (r.1 :: r'.1, r'.2)

/-- Sample standard deviation, the documented behaviour of
`statistics.stdev`: square root of `Σ (x - mean)² / (n - 1)`. -/
noncomputable def sample_stdev (l : List ℚ) : ℝ :=
  let n : ℚ := l.length
  let mean : ℚ := l.sum / n
  Real.sqrt (((l.map (fun x => (x - mean) ^ 2)).sum / (n - 1) : ℚ))

/-- Result record of `RepCounter.get_performance_stats`. The empty-history
early return produces a dictionary without the `fastest_rep` and
`slowest_rep` keys, modelled by `Option`. -/
structure PerformanceStats where
  total_reps : ℕ
  valid_reps : ℕ
  average_duration : ℚ
  average_form_score : ℚ
  consistency_score : ℝ
  fastest_rep : Option ℚ
  slowest_rep : Option ℚ

/-- Python `min(list)` on a nonempty list (the code guards nonemptiness). -/
def list_min (l : List ℚ) : ℚ := l.foldl min (l.headD 0)

/-- Python `max(list)` on a nonempty list. -/
def list_max (l : List ℚ) : ℚ := l.foldl max (l.headD 0)

/-- `RepCounter.get_performance_stats`. -/
noncomputable def get_performance_stats (s : RepCounterState) :
    PerformanceStats :=
  if s.repetitions = [] then
    { total_reps := 0
      valid_reps := 0
      average_duration := 0
      average_form_score := 0
      consistency_score := 0
      fastest_rep := none
      slowest_rep := none }
  else
    let durations := s.repetitions.map (fun r => r.duration)
    let form_scores := s.repetitions.map (fun r => r.average_form_score)
    let consistency_score : ℝ :=
      if 1 < durations.length then
        max 0 (100 - (sample_stdev durations * 10 + sample_stdev form_scores / 10))
      else 100
    { total_reps := s.total_reps
      valid_reps := s.valid_reps
      average_duration := durations.sum / (durations.length : ℚ)
      average_form_score := form_scores.sum / (form_scores.length : ℚ)
      consistency_score := consistency_score
      fastest_rep := some (list_min durations)
      slowest_rep := some (list_max durations) }

/-- Consistency score exactly as the specification words it: `100` when
fewer than two repetitions exist, otherwise
`max(0, 100 - (stdev(durations)*10 + stdev(form_scores)/10))`. -/
noncomputable def spec_consistency_score (reps : List RepetitionData) : ℝ :=
  if reps.length < 2 then 100
  else
    max 0 (100 - (sample_stdev (reps.map (fun r => r.duration)) * 10 +
      sample_stdev (reps.map (fun r => r.average_form_score)) / 10))

/-- One transition record, from `rep_analyzer.StateTransition`. -/
structure StateTransition where
  timestamp : ℚ
  from_state : String
  to_state : String
  elbow_angle : ℚ
  confidence : ℚ
  keypoint_count : ℕ
  duration_in_state : ℚ
deriving DecidableEq, Repr

/-- One rep attempt, from `rep_analyzer.RepAttempt`. -/
structure RepAttempt where
  attempt_id : ℕ
  start_time : ℚ
  end_time : Option ℚ
  duration : Option ℚ
  state_sequence : List String
  angle_sequence : List ℚ
  was_counted : Bool
  failure_reason : Option String
  quality_score : ℚ
deriving DecidableEq, Repr

/-- Mutable state of one `RepAnalyzer` instance (the log-directory and
session-id fields are I/O bookkeeping and carry no analysed behaviour). -/
structure RepAnalyzerState where
  session_start : ℚ
  current_state : Option String
  last_state_change : ℚ
  state_transitions : List StateTransition
  current_attempt : Option RepAttempt
  rep_attempts : List RepAttempt
  attempt_counter : ℕ
  state_buffer : List String
  angle_buffer : List ℚ
deriving DecidableEq, Repr

/-- `new_state.value.upper()` for each enum member. -/
def state_str : MovementState → String
  | READY => "READY"
  | DESCENDING => "DESCENDING"
  | BOTTOM => "BOTTOM"
  | ASCENDING => "ASCENDING"
  | TOP => "TOP"

/-- `self.valid_start_states` from `RepAnalyzer.__init__`. -/
def valid_start_states : List String := ["READY", "TOP"]

/-- `self.expected_sequence` from `RepAnalyzer.__init__`. -/
def analyzer_expected_sequence : List String :=
  ["DESCENDING", "BOTTOM", "ASCENDING", "TOP"]

/-- State built by `RepAnalyzer.__init__` at wall time `t`. -/
def init_analyzer (t : ℚ) : RepAnalyzerState :=
  { session_start := t
    current_state := none
    last_state_change := t
    state_transitions := []
    current_attempt := none
    rep_attempts := []
    attempt_counter := 0
    state_buffer := []
    angle_buffer := [] }

/-- `RepAnalyzer._analyze_failure`, applied to the open attempt (by the time
it is called, `end_time` and `duration` are already set). The
`self.current_attempt.duration and ... > 12` guard uses Python truthiness:
a `None` or `0.0` duration short-circuits to the next rule. -/
def analyze_failure (a : RepAttempt) : String :=
  let sequence := a.state_sequence
  if sequence.length < 4 then "incomplete_sequence"
  else if ¬ sequence.contains "BOTTOM" then "never_reached_bottom"
  else if 3 < sequence.count "BOTTOM" then "stuck_at_bottom"
  else if ¬ sequence.contains "ASCENDING" then "never_ascended"
  else if (match a.duration with
           | some d => !decide (d = 0) && decide (12 < d)
           | none => false) then "too_slow"
  else if sequence.dedup.length < 3 then "insufficient_state_variety"
  else "pattern_mismatch"

/-- `RepAnalyzer._calculate_quality_score`, applied to the open attempt. -/
def calculate_quality_score (a : RepAttempt) : ℚ :=
  let sequence := a.state_sequence
  let angles := a.angle_sequence
  let score : ℚ := 100
  let score := if sequence.length < 4 then score - 50 else score
  let expected_present : ℚ :=
    ((analyzer_expected_sequence.filter
      (fun st => sequence.contains st)).length : ℚ)
  let score :=
    score + expected_present / (analyzer_expected_sequence.length : ℚ) * 30
  let score :=
    if 20 < sequence.length then
      score - min 30 (((sequence.length : ℚ) - 20) * 2)
    else score
  let score :=
    if angles ≠ [] then
      let angle_range := list_max angles - list_min angles
      if 60 < angle_range then score + 20
      else if angle_range < 30 then score - 20
      else score
    else score
  max 0 (min 100 score)

/-- `RepAnalyzer._should_fail_attempt` at wall time `now`. -/
def should_fail_attempt (s : RepAnalyzerState) (now : ℚ) : Bool :=
  match s.current_attempt with
  | none => false
  | some a =>
    decide (15 < now - a.start_time) || decide (50 < a.state_sequence.length)

/-- `RepAnalyzer._start_new_attempt` at wall time `now`. -/
def start_new_attempt (s : RepAnalyzerState) (now : ℚ) : RepAnalyzerState :=
  { s with
    attempt_counter := s.attempt_counter + 1
    current_attempt := some
      { attempt_id := s.attempt_counter + 1
        start_time := now
        end_time := none
        duration := none
        state_sequence := []
        angle_sequence := []
        was_counted := false
        failure_reason := none
        quality_score := 0 } }

/-- `RepAnalyzer._complete_attempt` at wall time `now`. -/
def complete_attempt (s : RepAnalyzerState) (now : ℚ) (success : Bool) :
    RepAnalyzerState :=
  match s.current_attempt with
  | none => s
  | some a =>
    let a1 := { a with
      end_time := some now
      duration := some (now - a.start_time)
      was_counted := success }
    let a2 :=
      if success then a1
      else { a1 with failure_reason := some (analyze_failure a1) }
    let a3 := { a2 with quality_score := calculate_quality_score a2 }
    { s with
      rep_attempts := s.rep_attempts ++ [a3]
      current_attempt := none }

/-- `RepAnalyzer._update_rep_attempt` at wall time `now`. -/
def update_rep_attempt (s : RepAnalyzerState) (now : ℚ) (new_state : String)
    (elbow_angle : ℚ) (was_rep_counted : Bool) : RepAnalyzerState :=
  let s1 :=
    if valid_start_states.contains new_state ∧ s.current_attempt = none then
      start_new_attempt s now
    else s
  match s1.current_attempt with
  | none => s1
  | some a =>
    let a' := { a with
      state_sequence := a.state_sequence ++ [new_state]
      angle_sequence := a.angle_sequence ++ [elbow_angle] }
    let s2 := { s1 with current_attempt := some a' }
    if was_rep_counted then complete_attempt s2 now true
    else if should_fail_attempt s2 now then complete_attempt s2 now false
    else s2

/-- `RepAnalyzer.log_state_transition` at wall time `now`. -/
def log_state_transition (s : RepAnalyzerState) (now : ℚ)
    (new_state : MovementState) (elbow_angle confidence : ℚ)
    (keypoint_count : ℕ) (was_rep_counted : Bool) : RepAnalyzerState :=
  let st := state_str new_state
  let s1 :=
    if s.current_state ≠ some st then
      let s2 :=
        match s.current_state with
        | some cur =>
          let t : StateTransition :=
            { timestamp := now
              from_state := cur
              to_state := st
              elbow_angle := elbow_angle
              confidence := confidence
              keypoint_count := keypoint_count
              duration_in_state := now - s.last_state_change }
          let s3 := { s with state_transitions := s.state_transitions ++ [t] }
          update_rep_attempt s3 now st elbow_angle was_rep_counted
        | none => s
      { s2 with current_state := some st, last_state_change := now }
    else s
  { s1 with
    state_buffer := pushCap 20 s1.state_buffer st
    angle_buffer := pushCap 50 s1.angle_buffer elbow_angle }

/-- Run the analyzer over a list of `(now, phase, angle)` observations with
full confidence, 17 keypoints, and no counter signal. -/
def run_analyzer (s : RepAnalyzerState) :
    List (ℚ × MovementState × ℚ) → RepAnalyzerState
  | [] => s
  | (now, st, a) :: rest =>
    run_analyzer (log_state_transition s now st a 1 17 false) rest

/-- End-to-end pipeline: each `(now, angle)` sample goes through the state
machine, and the resulting phase (with the angle, a constant form score of
100 and the sample time) through the repetition counter. Returns the final
machine and counter states and, per sample, the phase the machine returned
and the boolean the counter returned. -/
def run_pipeline (ms : MachineState) (cs : RepCounterState) :
    List (ℚ × ℚ) → MachineState × RepCounterState × List (MovementState × Bool)
  | [] => (ms, cs, [])
  | (now, a) :: rest =>
    let m := update_state ms now a
    let c := counter_update cs m.2 a 100 now
    let r := run_pipeline m.1 c.2 rest
    (r.1, r.2.1, (m.2, c.1) :: r.2.2)

/-- The end-to-end scenario of the specification: angles
`[178, 170, 130, 95, 88, 92, 130, 170, 179]` at 0.3-second intervals. -/
def c3_inputs : List (ℚ × ℚ) :=
  [(0, 178), (3/10, 170), (3/5, 130), (9/10, 95), (6/5, 88),
   (3/2, 92), (9/5, 130), (21/10, 170), (12/5, 179)]

/-- Full run of the end-to-end scenario from freshly initialized machine and
counter. -/
def c3_run : MachineState × RepCounterState × List (MovementState × Bool) :=
  run_pipeline (init_machine 0) init_counter c3_inputs

/-- The same scenario stopped after its first two samples, to observe when
the repetition window opens. -/
def c3_run_two : MachineState × RepCounterState × List (MovementState × Bool) :=
  run_pipeline (init_machine 0) init_counter (c3_inputs.take 2)

/-- A machine state reachable from initialization by feeding the angles
130, 120, 100: it sits in `BOTTOM` with angle history `[130, 120, 100]`. -/
def c6_pre : MachineState :=
  run_machine (init_machine 0) [(1, 130), (2, 120), (3, 100)]

/-- Rank used to bound the number of phase changes on inputs inside the
hysteresis band: phases from which a band-limited run can still change
phase once map to 1, absorbing phases to 0. -/
def c6_rank : MovementState → ℕ
  | TOP => 0
  | DESCENDING => 0
  | READY => 1
  | ASCENDING => 1
  | BOTTOM => 1

/-- Membership in the two-value oscillation band around the top threshold. -/
def in_band (x : ℚ) : Prop := x = 148 ∨ x = 152

instance : DecidablePred in_band := fun x =>
  inferInstanceAs (Decidable (x = 148 ∨ x = 152))

/-- Diagnostics scenario of the claim: a `Ready` observation followed by 40
consecutive `Descending` observations, one second apart. -/
def c8_inputs : List (ℚ × MovementState × ℚ) :=
  (0, READY, 160) :: (List.range 40).map (fun i => (((i : ℚ) + 1), DESCENDING, (120 : ℚ)))

/-- Analyzer state after the diagnostics scenario. -/
def c8_run : RepAnalyzerState := run_analyzer (init_analyzer 0) c8_inputs

/-- Analyzer state after one first-ever observation (`Descending`). -/
def c10_s1 : RepAnalyzerState :=
  log_state_transition (init_analyzer 0) 1 DESCENDING 120 1 17 false

/-- A concrete valid repetition record, used to exercise the performance
statistics on a one-element history. -/
def c7_rep : RepetitionData :=
  { rep_number := 1
    start_time := 0
    end_time := 3
    form_scores := [100]
    state_sequence := [TOP, DESCENDING, BOTTOM, ASCENDING, TOP]
    average_form_score := 100
    duration := 3
    elbow_angles := [170] }

/-- A counter state holding exactly one repetition. -/
def c7_one_rep : RepCounterState :=
  { init_counter with repetitions := [c7_rep], total_reps := 1, valid_reps := 1 }

/-- The duration-gate scenario: a full cycle finished in half a second. -/
def c2_inputs : List (MovementState × ℚ × ℚ × ℚ) :=
  [(TOP, 170, 100, 0), (DESCENDING, 130, 100, 1/10), (BOTTOM, 90, 100, 1/5),
   (ASCENDING, 130, 100, 3/10), (TOP, 170, 100, 1/2)]

/-- Counter run of the duration-gate scenario from a fresh counter. -/
def c2_run : List Bool × RepCounterState := run_counter init_counter c2_inputs

/-- A valid-cycle run used to instantiate the universally quantified
valid-cycle theorem: full cycle, three seconds, perfect form. -/
def c1_inputs : List (MovementState × ℚ × ℚ × ℚ) :=
  [(TOP, 170, 100, 0), (DESCENDING, 130, 100, 1), (BOTTOM, 90, 100, 3/2),
   (ASCENDING, 130, 100, 2), (TOP, 170, 100, 3)]

/- ------------------------------------------------------------------ -/
/- Shared lemmas about the embedded operations.                        -/
/- Batteries marks rational arithmetic irreducible; concrete runs are  -/
/- evaluated by `decide`, which needs these operations unfolded.       -/
/- ------------------------------------------------------------------ -/

attribute [local semireducible] Rat.add Rat.mul Rat.inv Rat.sub

/-- Characterization of `should_transition_to_state`: the three acceptance
conditions of the smoothing filter. -/
theorem should_transition_iff (s : MachineState) (ns : MovementState) :
    should_transition_to_state s ns = true ↔
      ns ≠ s.current_state ∧ min_state_frames ≤ s.state_frame_count ∧
        is_valid_transition s.current_state ns = true := by
  unfold should_transition_to_state
  split_ifs with h1 h2
  · simp [h1]
  · simp only [false_iff]
    intro h
    omega
  · constructor
    · intro h
      exact ⟨h1, by omega, h⟩
    · intro h
      exact h.2.2

/-- When the filter rejects, `update_state` only records the sample: the
current phase is untouched. -/
theorem update_state_current_of_not_transition (s : MachineState)
    (now a : ℚ)
    (h : should_transition_to_state
      { s with angle_history := pushCap 5 s.angle_history a }
      (determine_state_from_angle s.current_state
        (pushCap 5 s.angle_history a) a) = false) :
    (update_state s now a).1.current_state = s.current_state := by
  unfold update_state
  by_cases ha : a = 0
  · simp [ha]
  · simp only [if_neg ha, h, Bool.false_eq_true, if_false]

/-- `complete_repetition` always hands back a reset in-progress window. -/
theorem complete_repetition_resets (s : RepCounterState) (t : ℚ) :
    (complete_repetition s t).2.sequence_index = 0 ∧
      (complete_repetition s t).2.current_rep_start = none ∧
      (complete_repetition s t).2.current_rep_states = [] ∧
      (complete_repetition s t).2.current_rep_angles = [] ∧
      (complete_repetition s t).2.current_rep_scores = [] := by
  unfold complete_repetition
  cases s.current_rep_start <;> simp [reset_current_rep]

/-- One `counter_update` call keeps the sequence index at most 4. -/
theorem counter_update_index_le (s : RepCounterState) (st : MovementState)
    (a sc t : ℚ) (h : s.sequence_index ≤ 4) :
    (counter_update s st a sc t).2.sequence_index ≤ 4 := by
  simp only [counter_update]
  split_ifs with h1 h2 h3 h4 h5 h6 <;>
    first
      | (rw [(complete_repetition_resets _ _).1]; omega)
      | (simp only [required_sequence, List.length_cons, List.length_nil,
          reset_current_rep] at *
         omega)

/-- Running the counter from any state with in-range index keeps the index
in range. -/
theorem run_counter_index_le (inputs : List (MovementState × ℚ × ℚ × ℚ)) :
    ∀ s : RepCounterState, s.sequence_index ≤ 4 →
      (run_counter s inputs).2.sequence_index ≤ 4 := by
  induction inputs with
  | nil => intro s h; simpa [run_counter] using h
  | cons p rest ih =>
    intro s h
    obtain ⟨st, a, sc, t⟩ := p
    exact ih _ (counter_update_index_le s st a sc t h)

/-- Case analysis of one `update_state` call on a nonzero angle: either the
smoothing filter rejects and the phase is untouched, or it accepts and the
phase becomes the candidate computed by `determine_state_from_angle`. -/
theorem update_state_cases (s : MachineState) (now a : ℚ) (ha : ¬ a = 0) :
    ((update_state s now a).1.current_state = s.current_state ∧
      (update_state s now a).1.angle_history = pushCap 5 s.angle_history a) ∨
    (should_transition_to_state
        { s with angle_history := pushCap 5 s.angle_history a }
        (determine_state_from_angle s.current_state
          (pushCap 5 s.angle_history a) a) = true ∧
      (update_state s now a).1.current_state =
        determine_state_from_angle s.current_state
          (pushCap 5 s.angle_history a) a ∧
      (update_state s now a).1.angle_history = pushCap 5 s.angle_history a) := by
  by_cases hst : should_transition_to_state
      { s with angle_history := pushCap 5 s.angle_history a }
      (determine_state_from_angle s.current_state
        (pushCap 5 s.angle_history a) a) = true
  · right
    have hne := ((should_transition_iff _ _).1 hst).1
    refine ⟨hst, ?_, ?_⟩ <;>
      simp [update_state, if_neg ha, hst, transition_to_state, hne]
  · left
    constructor <;>
      simp [update_state, if_neg ha, hst]

/-- The default of `getLastD` is irrelevant on a nonempty list: the value is
a member. -/
theorem getLastD_mem_of_ne_nil (l : List ℚ) (h : l ≠ []) :
    l.getLastD 0 ∈ l := by
  rw [List.getLastD_eq_getLast?, List.getLast?_eq_getLast l h]
  simp [List.getLast_mem h]

/-- `pushCap` written as drop-then-concat. -/
theorem pushCap_concat {α : Type} (c : ℕ) (hc : 1 ≤ c) (l : List α) (a : α) :
    pushCap c l a = l.drop (l.length + 1 - c) ++ [a] := by
  unfold pushCap
  simp only [List.length_append, List.length_cons, List.length_nil,
    Nat.zero_add]
  rw [List.drop_append_eq_append_drop]
  have h0 : l.length + 1 - c - l.length = 0 := by omega
  rw [h0]
  rfl

/-- Members of a capped buffer come from the old buffer or are the new
element. -/
theorem mem_pushCap {α : Type} {c : ℕ} {l : List α} {a x : α}
    (hx : x ∈ pushCap c l a) : x ∈ l ∨ x = a := by
  unfold pushCap at hx
  rcases List.mem_append.1 (List.mem_of_mem_drop hx) with h | h
  · exact Or.inl h
  · simp only [List.mem_singleton] at h
    exact Or.inr h

/-- The last element of a capped buffer is the newly pushed one. -/
theorem pushCap_getLastD (c : ℕ) (hc : 1 ≤ c) (l : List ℚ) (a : ℚ) :
    (pushCap c l a).getLastD 0 = a := by
  rw [pushCap_concat c hc, List.getLastD_concat]

/-- Dropping the last element of a capped buffer recovers a suffix of the
old buffer. -/
theorem pushCap_dropLast {α : Type} (c : ℕ) (hc : 1 ≤ c) (l : List α)
    (a : α) :
    (pushCap c l a).dropLast = l.drop (l.length + 1 - c) := by
  rw [pushCap_concat c hc, List.dropLast_concat]

/-- The capped angle buffer holds at least two entries exactly when the old
buffer was nonempty (capacity 5). -/
theorem pushCap_length_two (l : List ℚ) (a : ℚ) :
    2 ≤ (pushCap 5 l a).length ↔ l ≠ [] := by
  rw [pushCap_concat 5 (by norm_num), List.length_append, List.length_drop]
  simp only [List.length_cons, List.length_nil]
  rw [ne_eq, ← List.length_eq_zero]
  omega

/-- The previous-sample slot of the capped buffer is a member of the old
buffer. -/
theorem pushCap_prev_mem (l : List ℚ) (a : ℚ) (h : l ≠ []) :
    (pushCap 5 l a).dropLast.getLastD 0 ∈ l := by
  rw [pushCap_dropLast 5 (by norm_num)]
  have hpos : 0 < l.length := List.length_pos.2 h
  have hne : l.drop (l.length + 1 - 5) ≠ [] := by
    rw [ne_eq, ← List.length_eq_zero, List.length_drop]
    omega
  exact List.mem_of_mem_drop (getLastD_mem_of_ne_nil _ hne)


/-- The candidate phase computed from a band angle over a band history is
never `Bottom` and never a fresh `Ascending`; from `Top` it is always
`Top`. -/
theorem determine_band (cur : MovementState) (l : List ℚ) (a : ℚ)
    (hh : ∀ x ∈ l, in_band x) (ha : in_band a) :
    (determine_state_from_angle cur (pushCap 5 l a) a = TOP ∨
     determine_state_from_angle cur (pushCap 5 l a) a = DESCENDING ∨
     determine_state_from_angle cur (pushCap 5 l a) a = READY ∨
     determine_state_from_angle cur (pushCap 5 l a) a = cur) ∧
    (cur = TOP → determine_state_from_angle cur (pushCap 5 l a) a = TOP) := by
  by_cases hl : l = []
  · subst hl
    have hlen : ¬ (2 : ℕ) ≤ (pushCap 5 ([] : List ℚ) a).length := by
      rw [pushCap_length_two]
      simp
    rcases ha with ha | ha <;> subst ha <;> cases cur <;>
      (simp only [determine_state_from_angle]
       simp [top_threshold, bottom_threshold, transition_hysteresis,
         movement_threshold, hlen]) <;>
      norm_num
  · have hlen : (2 : ℕ) ≤ (pushCap 5 l a).length :=
      (pushCap_length_two l a).2 hl
    have hprev : in_band ((pushCap 5 l a).dropLast.getLastD 0) :=
      hh _ (pushCap_prev_mem l a hl)
    have hlast : (pushCap 5 l a).getLastD 0 = a :=
      pushCap_getLastD 5 (by norm_num) l a
    rcases ha with ha | ha <;> rcases hprev with hp | hp <;> subst ha <;>
      cases cur <;>
      (simp only [determine_state_from_angle]
       rw [hlast, hp]
       simp [top_threshold, bottom_threshold, transition_hysteresis,
         movement_threshold, hlen]) <;>
      norm_num

/-- One `update_state` call on a band angle over a band history: the stored
history stays in the band, and the phase either stays put or moves from a
rank-1 phase (`Ready`, `Ascending`, `Bottom`) to a rank-0 phase (`Top`,
`Descending`). -/
theorem c6_band_step (s : MachineState) (now a : ℚ)
    (hh : ∀ x ∈ s.angle_history, in_band x) (ha : in_band a) :
    (∀ x ∈ (update_state s now a).1.angle_history, in_band x) ∧
      ((update_state s now a).1.current_state = s.current_state ∨
        (c6_rank s.current_state = 1 ∧
          c6_rank (update_state s now a).1.current_state = 0)) := by
  have ha0 : ¬ a = 0 := by
    rcases ha with h | h <;> rw [h] <;> norm_num
  have hband : ∀ x ∈ pushCap 5 s.angle_history a, in_band x := by
    intro x hx
    rcases mem_pushCap hx with h | h
    · exact hh x h
    · rw [h]; exact ha
  rcases update_state_cases s now a ha0 with ⟨hc, hhist⟩ | ⟨hst, hc, hhist⟩
  · refine ⟨?_, Or.inl hc⟩
    rw [hhist]
    exact hband
  · refine ⟨by rw [hhist]; exact hband, ?_⟩
    have hiff := (should_transition_iff _ _).1 hst
    have hne : determine_state_from_angle s.current_state
        (pushCap 5 s.angle_history a) a ≠ s.current_state := by
      simpa using hiff.1
    have hvalid : is_valid_transition s.current_state
        (determine_state_from_angle s.current_state
          (pushCap 5 s.angle_history a) a) = true := by
      simpa using hiff.2.2
    obtain ⟨hD1, hDtop⟩ := determine_band s.current_state s.angle_history a hh ha
    rw [hc]
    cases hcur : s.current_state <;>
      rw [hcur] at hD1 hne hvalid hDtop <;>
      rcases hD1 with h | h | h | h <;>
      first
        | exact absurd h hne
        | exact absurd (hDtop rfl) hne
        | (rw [h] at hvalid; exact absurd hvalid (by decide))
        | (rw [h]; exact Or.inr ⟨rfl, rfl⟩)

/-- Over any run of band angles from a band-history state, the number of
phase changes is bounded by the rank of the starting phase. -/
theorem count_changes_le_rank (inputs : List (ℚ × ℚ)) :
    ∀ s : MachineState, (∀ x ∈ s.angle_history, in_band x) →
      (∀ p ∈ inputs, in_band p.2) →
      count_phase_changes s inputs ≤ c6_rank s.current_state := by
  induction inputs with
  | nil =>
    intro s _ _
    simp [count_phase_changes]
  | cons p rest ih =>
    intro s hh hin
    obtain ⟨now, a⟩ := p
    have ha : in_band a := hin (now, a) (by simp)
    obtain ⟨hh1, hcase⟩ := c6_band_step s now a hh ha
    have hin1 : ∀ q ∈ rest, in_band q.2 := fun q hq => hin q (by simp [hq])
    have hrec := ih ((update_state s now a).1) hh1 hin1
    simp only [count_phase_changes]
    rcases hcase with heq | ⟨hr1, hr0⟩
    · rw [if_pos heq]
      rw [heq] at hrec
      omega
    · have hne : ¬ (update_state s now a).1.current_state = s.current_state := by
        intro hx
        rw [hx, hr1] at hr0
        exact absurd hr0 (by norm_num)
      rw [if_neg hne]
      omega

/-- C6 counterexample: a state reachable from initialization (via angles
130, 120, 100, ending in `Bottom` with out-of-band history `[130, 120,
100]`) changes phase twice on the in-band inputs 148 then 152 — so the
claim does not hold for every starting state with these thresholds. -/
theorem c6_counterexample :
    count_phase_changes c6_pre [(4, 148), (5, 152)] = 2 := by
  decide

/-- C6 amended: for every machine state whose stored angle history lies in
the band `{148, 152}` (in particular the fresh machine, whose history is
empty), and every input sequence whose angles all lie in that band, the
current phase changes at most once over the whole run. -/
theorem c6_at_most_one_change (s : MachineState)
    (hh : ∀ x ∈ s.angle_history, in_band x) (inputs : List (ℚ × ℚ))
    (hin : ∀ p ∈ inputs, in_band p.2) :
    count_phase_changes s inputs ≤ 1 := by
  have h := count_changes_le_rank inputs s hh hin
  have hr : c6_rank s.current_state ≤ 1 := by
    cases s.current_state <;> simp [c6_rank]
  omega

/-- Witness for C6: the fresh machine fed 148 then 152 changes phase at
most once. -/
theorem c6_witness :
    (∀ x ∈ (init_machine 0).angle_history, in_band x) ∧
      count_phase_changes (init_machine 0) [(1, 148), (2, 152)] ≤ 1 :=
  ⟨by simp [init_machine], c6_at_most_one_change (init_machine 0)
    (by simp [init_machine]) [(1, 148), (2, 152)] (by decide)⟩


/-- C5: for every state of the Phase State Machine, `update_state` on a
sample whose computed angle is `0.0` returns the unchanged current phase
and leaves the whole machine state (current phase, phase-entry time,
in-phase frame count, angle history, transition history) exactly as it was,
raising no error. -/
theorem c5_zero_angle_is_noop (s : MachineState) (now : ℚ) :
    update_state s now 0 = (s, s.current_state) := by
  simp [update_state]

/-- C4: whenever one `update_state` call changes the current phase, the
pair (previous phase, new phase) is in the fixed adjacency table
(`is_valid_transition`), the machine had dwelt at least `min_state_frames`
updates in the previous phase, the new phase is exactly the candidate
computed from the angle, and the angle was a genuine (nonzero) sample; the
contrapositive — any other candidate leaves the phase unchanged, with no
error raised — follows because `update_state` is a total function. -/
theorem c4_phase_changes_respect_adjacency (s : MachineState) (now a : ℚ)
    (h : (update_state s now a).1.current_state ≠ s.current_state) :
    is_valid_transition s.current_state
        (update_state s now a).1.current_state = true ∧
      min_state_frames ≤ s.state_frame_count ∧
      (update_state s now a).1.current_state =
        determine_state_from_angle s.current_state
          (pushCap 5 s.angle_history a) a ∧
      a ≠ 0 := by
  have ha : ¬ a = 0 := by
    intro ha
    subst ha
    simp [update_state] at h
  rcases update_state_cases s now a ha with hcase | hcase
  · exact absurd hcase.1 h
  · obtain ⟨hst, hcur, -⟩ := hcase
    have hiff := (should_transition_iff _ _).1 hst
    refine ⟨?_, ?_, hcur, ha⟩
    · rw [hcur]
      simpa using hiff.2.2
    · simpa using hiff.2.1

/-- Witness for C4: a concrete call in which the phase changes (a fresh
machine that has dwelt one frame in `Ready` receives angle 170 and moves to
`Top`). -/
theorem c4_witness :
    ((update_state (run_machine (init_machine 0) [(1, 130)]) 2 170).1.current_state
        ≠ (run_machine (init_machine 0) [(1, 130)]).current_state) ∧
      is_valid_transition
        (run_machine (init_machine 0) [(1, 130)]).current_state
        ((update_state (run_machine (init_machine 0) [(1, 130)]) 2 170).1.current_state)
        = true :=
  ⟨by decide,
    (c4_phase_changes_respect_adjacency
      (run_machine (init_machine 0) [(1, 130)]) 2 170 (by decide)).1⟩

/-- C9: starting from the freshly initialized counter, after any sequence
of `update` calls whatsoever the `sequence_index` stays strictly below the
length of `required_sequence` (i.e. in `0..4`), so the read
`required_sequence[sequence_index]` performed at the start of every
`update` call is always in bounds. -/
theorem c9_sequence_index_in_bounds
    (inputs : List (MovementState × ℚ × ℚ × ℚ)) :
    (run_counter init_counter inputs).2.sequence_index <
      required_sequence.length := by
  have h := run_counter_index_le inputs init_counter (by decide)
  simp only [required_sequence, List.length_cons, List.length_nil]
  omega

/-- C2 counterexample: in the half-second full-cycle scenario the code does
NOT increment `total_reps` — the invalid record is discarded entirely, so
`total_reps` stays 0 rather than becoming 1 as the claim states. -/
theorem c2_counterexample :
    c2_run.2.total_reps = 0 ∧
      c2_run.2.total_reps ≠ init_counter.total_reps + 1 := by
  decide

/-- C2 amended: for the full cycle Top, Descending, Bottom, Ascending, Top
finished in 0.5 seconds, the finalizing `update` returns false and the rep
is not counted as valid; `valid_reps` does not increment, and neither does
`total_reps`, because an invalid finalized repetition is discarded without
being recorded: the counter returns exactly to its initial state. -/
theorem c2_invalid_duration_not_counted :
    c2_run.1 = [false, false, false, false, false] ∧
      c2_run.2 = init_counter := by
  decide

/-- C3 counterexample: the end-to-end scenario (angles
`[178, 170, 130, 95, 88, 92, 130, 170, 179]` at 0.3-second steps, form
score 100) yields zero valid repetitions, not one: the state machine emits
`Ready` on the very first frame (minimum-dwell filter), so the rep window
only opens at the second sample and the cycle closes 1.8 seconds later,
failing the 2-second duration gate. -/
theorem c3_counterexample : c3_run.2.1.valid_reps ≠ 1 := by
  decide

/-- C3 amended: the scenario produces the phase stream Ready, Top,
Descending, Bottom, Bottom, Bottom, Ascending, Top, Top; every counter
update returns false, the rep window opens at time 0.3 and the closing
`Top` arrives at 2.1 (duration 1.8 s, failing the `[2,10]` gate), so no
repetition — valid or otherwise — is recorded, and an eighth-sample reset
leaves a fresh window open at time 2.4. -/
theorem c3_zero_valid_reps :
    c3_run.2.2.map Prod.fst =
      [READY, TOP, DESCENDING, BOTTOM, BOTTOM, BOTTOM, ASCENDING, TOP, TOP] ∧
    c3_run.2.2.map Prod.snd = List.replicate 9 false ∧
    c3_run.2.1.valid_reps = 0 ∧
    c3_run.2.1.total_reps = 0 ∧
    c3_run.2.1.repetitions = [] ∧
    c3_run_two.2.1.current_rep_start = some (3/10) ∧
    c3_run.2.1.current_rep_start = some (12/5) := by
  decide

/-- C8 counterexample: in the scenario `Ready` followed by 40 consecutive
`Descending` observations, no rep attempt ever exists — the first-ever
observation does not open one and `Descending` is not a start state — so
no attempt closes with `failure_reason = "never_reached_bottom"`. -/
theorem c8_counterexample :
    c8_run.rep_attempts = [] ∧ c8_run.current_attempt = none := by
  decide

/-- C8 amended: in the `Ready` then 40-times-`Descending` scenario no
attempt opens (so none can fail), and only the one genuine phase change
`Ready → Descending` emits a transition record — the 40 repeated
`Descending` observations only update the rolling buffers. -/
theorem c8_no_attempt_single_transition :
    c8_run.state_transitions =
      [{ timestamp := 1, from_state := "READY", to_state := "DESCENDING",
         elbow_angle := 120, confidence := 1, keypoint_count := 17,
         duration_in_state := 1 }] ∧
    c8_run.rep_attempts = [] ∧
    c8_run.current_attempt = none ∧
    c8_run.attempt_counter = 0 ∧
    c8_run.state_buffer = List.replicate 20 "DESCENDING" ∧
    c8_run.angle_buffer.length = 41 := by
  decide

/-- C10: the first phase value ever passed to `log_state_transition` after
construction emits no transition record and opens no attempt, whatever the
phase (including `Ready` and `Top`); and an attempt can only open on a call
whose phase differs from the previously observed one (in particular some
phase must already have been observed). -/
theorem c10_first_observation_opens_nothing :
    (∀ (t0 now a c : ℚ) (p : MovementState) (k : ℕ) (wc : Bool),
      (log_state_transition (init_analyzer t0) now p a c k wc).state_transitions
          = [] ∧
        (log_state_transition (init_analyzer t0) now p a c k wc).current_attempt
          = none ∧
        (log_state_transition (init_analyzer t0) now p a c k wc).rep_attempts
          = [] ∧
        (log_state_transition (init_analyzer t0) now p a c k wc).attempt_counter
          = 0) ∧
    (∀ (s : RepAnalyzerState) (now a c : ℚ) (p : MovementState) (k : ℕ)
        (wc : Bool),
      s.attempt_counter <
          (log_state_transition s now p a c k wc).attempt_counter →
        s.current_state ≠ none ∧ s.current_state ≠ some (state_str p)) := by
  constructor
  · intro t0 now a c p k wc
    refine ⟨?_, ?_, ?_, ?_⟩ <;>
      simp [log_state_transition, init_analyzer]
  · intro s now a c p k wc h
    rcases hcs : s.current_state with _ | cur
    · exfalso
      rw [log_state_transition] at h
      simp only [hcs] at h
      simp at h
    · by_cases hc : cur = state_str p
      · exfalso
        rw [log_state_transition] at h
        simp only [hcs, hc] at h
        simp at h
      · exact ⟨by simp [hcs], by simp [hcs, hc]⟩

/-- A finalized repetition whose buffered states form a complete cycle,
whose duration lies in the `[2, 10]` gate and whose buffered scores average
at least 60 is valid. -/
theorem is_valid_of (r : RepetitionData)
    (hc : ([TOP, DESCENDING, BOTTOM, ASCENDING].all
      (fun st => r.state_sequence.contains st)) = true)
    (h1 : 2 ≤ r.duration) (h2 : r.duration ≤ 10)
    (h3 : 60 ≤ r.average_form_score) :
    r.is_valid = true := by
  unfold RepetitionData.is_valid
  simp only [Bool.and_eq_true, Bool.or_eq_true, decide_eq_true_eq]
  exact ⟨⟨hc, h1, h2⟩, Or.inr h3⟩

/-- C1: from any counter state whose in-progress window is reset (index 0,
no start time, empty buffers — with arbitrary accumulated history and
totals), feeding the exact cycle Top, Descending, Bottom, Ascending, Top
with finalize-minus-start duration in `[2, 10]` seconds and all form
scores at least 60 makes the finalizing update return true, increments the
valid-rep count (and the total) by exactly one, and leaves the in-progress
buffers empty, the sequence index 0 and the rep-start timestamp cleared. -/
theorem c1_valid_cycle_counts (reps : List RepetitionData) (tot val : ℕ)
    (a0 a1 a2 a3 a4 f0 f1 f2 f3 f4 t0 t1 t2 t3 t4 : ℚ)
    (hdlo : 2 ≤ t4 - t0) (hdhi : t4 - t0 ≤ 10)
    (hf0 : 60 ≤ f0) (hf1 : 60 ≤ f1) (hf2 : 60 ≤ f2) (hf3 : 60 ≤ f3)
    (hf4 : 60 ≤ f4) :
    (run_counter
      ({ sequence_index := 0, current_rep_start := none, current_rep_states := [], current_rep_angles := [], current_rep_scores := [], repetitions := reps, total_reps := tot, valid_reps := val } : RepCounterState)
      [(TOP, a0, f0, t0), (DESCENDING, a1, f1, t1), (BOTTOM, a2, f2, t2),
       (ASCENDING, a3, f3, t3), (TOP, a4, f4, t4)]).1 =
      [false, false, false, false, true] ∧
    (run_counter
      ({ sequence_index := 0, current_rep_start := none, current_rep_states := [], current_rep_angles := [], current_rep_scores := [], repetitions := reps, total_reps := tot, valid_reps := val } : RepCounterState)
      [(TOP, a0, f0, t0), (DESCENDING, a1, f1, t1), (BOTTOM, a2, f2, t2),
       (ASCENDING, a3, f3, t3), (TOP, a4, f4, t4)]).2.valid_reps = val + 1 ∧
    (run_counter
      ({ sequence_index := 0, current_rep_start := none, current_rep_states := [], current_rep_angles := [], current_rep_scores := [], repetitions := reps, total_reps := tot, valid_reps := val } : RepCounterState)
      [(TOP, a0, f0, t0), (DESCENDING, a1, f1, t1), (BOTTOM, a2, f2, t2),
       (ASCENDING, a3, f3, t3), (TOP, a4, f4, t4)]).2.total_reps = tot + 1 ∧
    (run_counter
      ({ sequence_index := 0, current_rep_start := none, current_rep_states := [], current_rep_angles := [], current_rep_scores := [], repetitions := reps, total_reps := tot, valid_reps := val } : RepCounterState)
      [(TOP, a0, f0, t0), (DESCENDING, a1, f1, t1), (BOTTOM, a2, f2, t2),
       (ASCENDING, a3, f3, t3), (TOP, a4, f4, t4)]).2.current_rep_states = [] ∧
    (run_counter
      ({ sequence_index := 0, current_rep_start := none, current_rep_states := [], current_rep_angles := [], current_rep_scores := [], repetitions := reps, total_reps := tot, valid_reps := val } : RepCounterState)
      [(TOP, a0, f0, t0), (DESCENDING, a1, f1, t1), (BOTTOM, a2, f2, t2),
       (ASCENDING, a3, f3, t3), (TOP, a4, f4, t4)]).2.current_rep_angles = [] ∧
    (run_counter
      ({ sequence_index := 0, current_rep_start := none, current_rep_states := [], current_rep_angles := [], current_rep_scores := [], repetitions := reps, total_reps := tot, valid_reps := val } : RepCounterState)
      [(TOP, a0, f0, t0), (DESCENDING, a1, f1, t1), (BOTTOM, a2, f2, t2),
       (ASCENDING, a3, f3, t3), (TOP, a4, f4, t4)]).2.current_rep_scores = [] ∧
    (run_counter
      ({ sequence_index := 0, current_rep_start := none, current_rep_states := [], current_rep_angles := [], current_rep_scores := [], repetitions := reps, total_reps := tot, valid_reps := val } : RepCounterState)
      [(TOP, a0, f0, t0), (DESCENDING, a1, f1, t1), (BOTTOM, a2, f2, t2),
       (ASCENDING, a3, f3, t3), (TOP, a4, f4, t4)]).2.sequence_index = 0 ∧
    (run_counter
      ({ sequence_index := 0, current_rep_start := none, current_rep_states := [], current_rep_angles := [], current_rep_scores := [], repetitions := reps, total_reps := tot, valid_reps := val } : RepCounterState)
      [(TOP, a0, f0, t0), (DESCENDING, a1, f1, t1), (BOTTOM, a2, f2, t2),
       (ASCENDING, a3, f3, t3), (TOP, a4, f4, t4)]).2.current_rep_start = none := by
  have e1 : counter_update
      ({ sequence_index := 0, current_rep_start := none, current_rep_states := [], current_rep_angles := [], current_rep_scores := [], repetitions := reps, total_reps := tot, valid_reps := val } : RepCounterState) TOP a0 f0 t0 =
      (false, ({ sequence_index := 1, current_rep_start := some t0, current_rep_states := [TOP], current_rep_angles := [a0], current_rep_scores := [f0], repetitions := reps, total_reps := tot, valid_reps := val } : RepCounterState)) := rfl
  have e2 : counter_update
      ({ sequence_index := 1, current_rep_start := some t0, current_rep_states := [TOP], current_rep_angles := [a0], current_rep_scores := [f0], repetitions := reps, total_reps := tot, valid_reps := val } : RepCounterState) DESCENDING a1 f1 t1 =
      (false, ({ sequence_index := 2, current_rep_start := some t0, current_rep_states := [TOP, DESCENDING], current_rep_angles := [a0, a1], current_rep_scores := [f0, f1], repetitions := reps, total_reps := tot, valid_reps := val } : RepCounterState)) := rfl
  have e3 : counter_update
      ({ sequence_index := 2, current_rep_start := some t0, current_rep_states := [TOP, DESCENDING], current_rep_angles := [a0, a1], current_rep_scores := [f0, f1], repetitions := reps, total_reps := tot, valid_reps := val } : RepCounterState) BOTTOM a2 f2 t2 =
      (false, ({ sequence_index := 3, current_rep_start := some t0, current_rep_states := [TOP, DESCENDING, BOTTOM], current_rep_angles := [a0, a1, a2], current_rep_scores := [f0, f1, f2], repetitions := reps, total_reps := tot, valid_reps := val } : RepCounterState)) := rfl
  have e4 : counter_update
      ({ sequence_index := 3, current_rep_start := some t0, current_rep_states := [TOP, DESCENDING, BOTTOM], current_rep_angles := [a0, a1, a2], current_rep_scores := [f0, f1, f2], repetitions := reps, total_reps := tot, valid_reps := val } : RepCounterState) ASCENDING a3 f3 t3 =
      (false, ({ sequence_index := 4, current_rep_start := some t0, current_rep_states := [TOP, DESCENDING, BOTTOM, ASCENDING], current_rep_angles := [a0, a1, a2, a3], current_rep_scores := [f0, f1, f2, f3], repetitions := reps, total_reps := tot, valid_reps := val } : RepCounterState)) := rfl
  have e5 : counter_update
      ({ sequence_index := 4, current_rep_start := some t0, current_rep_states := [TOP, DESCENDING, BOTTOM, ASCENDING], current_rep_angles := [a0, a1, a2, a3], current_rep_scores := [f0, f1, f2, f3], repetitions := reps, total_reps := tot, valid_reps := val } : RepCounterState) TOP a4 f4 t4 =
      complete_repetition ({ sequence_index := 5, current_rep_start := some t0, current_rep_states := [TOP, DESCENDING, BOTTOM, ASCENDING, TOP], current_rep_angles := [a0, a1, a2, a3, a4], current_rep_scores := [f0, f1, f2, f3, f4], repetitions := reps, total_reps := tot, valid_reps := val } : RepCounterState) t4 := rfl
  have hrun : run_counter
      ({ sequence_index := 0, current_rep_start := none, current_rep_states := [], current_rep_angles := [], current_rep_scores := [], repetitions := reps, total_reps := tot, valid_reps := val } : RepCounterState)
      [(TOP, a0, f0, t0), (DESCENDING, a1, f1, t1), (BOTTOM, a2, f2, t2),
       (ASCENDING, a3, f3, t3), (TOP, a4, f4, t4)] =
      ([false, false, false, false,
        (complete_repetition ({ sequence_index := 5, current_rep_start := some t0, current_rep_states := [TOP, DESCENDING, BOTTOM, ASCENDING, TOP], current_rep_angles := [a0, a1, a2, a3, a4], current_rep_scores := [f0, f1, f2, f3, f4], repetitions := reps, total_reps := tot, valid_reps := val } : RepCounterState) t4).1],
       (complete_repetition ({ sequence_index := 5, current_rep_start := some t0, current_rep_states := [TOP, DESCENDING, BOTTOM, ASCENDING, TOP], current_rep_angles := [a0, a1, a2, a3, a4], current_rep_scores := [f0, f1, f2, f3, f4], repetitions := reps, total_reps := tot, valid_reps := val } : RepCounterState) t4).2) := by
    simp only [run_counter, e1, e2, e3, e4, e5]
  have hv : (complete_repetition ({ sequence_index := 5, current_rep_start := some t0, current_rep_states := [TOP, DESCENDING, BOTTOM, ASCENDING, TOP], current_rep_angles := [a0, a1, a2, a3, a4], current_rep_scores := [f0, f1, f2, f3, f4], repetitions := reps, total_reps := tot, valid_reps := val } : RepCounterState) t4).1 = true ∧
      (complete_repetition ({ sequence_index := 5, current_rep_start := some t0, current_rep_states := [TOP, DESCENDING, BOTTOM, ASCENDING, TOP], current_rep_angles := [a0, a1, a2, a3, a4], current_rep_scores := [f0, f1, f2, f3, f4], repetitions := reps, total_reps := tot, valid_reps := val } : RepCounterState) t4).2.valid_reps = val + 1 ∧
      (complete_repetition ({ sequence_index := 5, current_rep_start := some t0, current_rep_states := [TOP, DESCENDING, BOTTOM, ASCENDING, TOP], current_rep_angles := [a0, a1, a2, a3, a4], current_rep_scores := [f0, f1, f2, f3, f4], repetitions := reps, total_reps := tot, valid_reps := val } : RepCounterState) t4).2.total_reps = tot + 1 := by
    simp only [complete_repetition]
    rw [is_valid_of]
    · simp [reset_current_rep]
    · rfl
    · exact hdlo
    · exact hdhi
    · show (60:ℚ) ≤ if ([f0, f1, f2, f3, f4] : List ℚ) = [] then 100
        else ([f0, f1, f2, f3, f4] : List ℚ).sum /
          (([f0, f1, f2, f3, f4] : List ℚ).length : ℚ)
      rw [if_neg (by simp)]
      have hs : ([f0, f1, f2, f3, f4] : List ℚ).sum /
          (([f0, f1, f2, f3, f4] : List ℚ).length : ℚ) =
          (f0 + f1 + f2 + f3 + f4) / 5 := by
        norm_num [List.sum_cons]
        ring
      rw [hs, le_div_iff₀ (by norm_num : (0:ℚ) < 5)]
      linarith
  obtain ⟨r1, r2, r3, r4, r5⟩ := complete_repetition_resets ({ sequence_index := 5, current_rep_start := some t0, current_rep_states := [TOP, DESCENDING, BOTTOM, ASCENDING, TOP], current_rep_angles := [a0, a1, a2, a3, a4], current_rep_scores := [f0, f1, f2, f3, f4], repetitions := reps, total_reps := tot, valid_reps := val } : RepCounterState) t4
  rw [hrun]
  refine ⟨?_, hv.2.1, hv.2.2, r3, r4, r5, r1, r2⟩
  simp only [hv.1]
/-- Witness for C1: the valid-cycle theorem instantiated on a fresh counter
with the concrete three-second perfect-form cycle `c1_inputs`. -/
theorem c1_witness :
    (2:ℚ) ≤ 3 - 0 ∧ (3:ℚ) - 0 ≤ 10 ∧
      (run_counter init_counter c1_inputs).1 =
        [false, false, false, false, true] ∧
      (run_counter init_counter c1_inputs).2.valid_reps =
        init_counter.valid_reps + 1 :=
  ⟨by norm_num, by norm_num,
    (c1_valid_cycle_counts [] 0 0 170 130 90 130 170 100 100 100 100 100
      0 1 (3/2) 2 3 (by norm_num) (by norm_num) (by norm_num) (by norm_num)
      (by norm_num) (by norm_num) (by norm_num)).1,
    (c1_valid_cycle_counts [] 0 0 170 130 90 130 170 100 100 100 100 100
      0 1 (3/2) 2 3 (by norm_num) (by norm_num) (by norm_num) (by norm_num)
      (by norm_num) (by norm_num) (by norm_num)).2.1⟩

/-- C7 counterexample: for the empty repetition history the code takes the
early-return branch of `get_performance_stats` and reports a
consistency score of 0.0, not the claimed 100.0. -/
theorem c7_counterexample :
    (get_performance_stats init_counter).consistency_score = 0 ∧
      (get_performance_stats init_counter).consistency_score ≠ 100 := by
  have h : (get_performance_stats init_counter).consistency_score = 0 := by
    simp [get_performance_stats, init_counter]
  refine ⟨h, ?_⟩
  rw [h]
  norm_num

/-- C7 amended: on every nonempty repetition history the consistency score
returned by `get_performance_stats` agrees with the specification formula —
exactly 100 for a single repetition, and
`max(0, 100 - (stdev(durations)*10 + stdev(form_scores)/10))` for two or
more; only the empty history diverges (the code returns 0 there). -/
theorem c7_consistency_matches_spec_on_nonempty (s : RepCounterState)
    (h : s.repetitions ≠ []) :
    (get_performance_stats s).consistency_score =
      spec_consistency_score s.repetitions := by
  simp only [get_performance_stats, spec_consistency_score]
  rw [if_neg h]
  simp only [List.length_map]
  by_cases h2 : 1 < s.repetitions.length
  · rw [if_pos h2, if_neg (by omega)]
  · rw [if_neg h2, if_pos (by omega)]

/-- Witness for C7: on the concrete one-repetition history both the code
and the specification formula give a consistency score of 100. -/
theorem c7_witness :
    c7_one_rep.repetitions ≠ [] ∧
      (get_performance_stats c7_one_rep).consistency_score =
        spec_consistency_score c7_one_rep.repetitions :=
  ⟨by decide, c7_consistency_matches_spec_on_nonempty c7_one_rep (by decide)⟩

/-- Witness for C10: after a first `Descending` observation, a later `Top`
observation does open an attempt, and the previously observed phase indeed
differs from `Top`. -/
theorem c10_witness :
    c10_s1.attempt_counter <
        (log_state_transition c10_s1 2 TOP 160 1 17 false).attempt_counter ∧
      c10_s1.current_state ≠ some (state_str TOP) :=
  ⟨by decide,
    (c10_first_observation_opens_nothing.2 c10_s1 2 160 1 TOP 17 false
      (by decide)).2⟩

end GyattForm
